import Mathlib

/-! Shallow embedding of the Pixel Bender bytecode parser found in
`src/render/src/pixel_bender.rs` of the ruffle repository.

Modelling conventions:
* a byte buffer is a `List Nat` (entries below 256 on real inputs);
  the Rust slice cursor becomes explicit state passing of the
  remaining suffix;
* `f32` fields are represented by their raw 32-bit pattern as a `Nat`
  (the parser only moves float bits around, it never performs float
  arithmetic, so the bit pattern is a faithful representation);
* machine integers are `Nat`/`Int` with explicit reduction where the
  source masks or sign-extends;
* Rust `Result::Err` values that the parser can return (I/O truncation
  from a short buffer, `FromUtf8Error`) are modelled by the
  `PBError.truncated` / `PBError.invalidUtf8` constructors, while the
  source's `panic!` / `assert_eq!` / `expect` process aborts are
  modelled by the constructors whose `isPanic` is `true`, keeping the
  two failure classes distinguishable;
* strings are lists of Unicode code points (`List Nat`); the
  null-terminated reader produces one code point per raw byte, the
  `Name` opcode goes through a UTF-8 decoder modelling
  `String::from_utf8`.
-/

namespace PixelBender

/-- A byte buffer: the remaining input suffix seen by the cursor. -/
abbrev Bytes := List Nat

/-- Failure outcomes of the decoder.  `truncated` and `invalidUtf8`
are the recoverable `Result::Err` values of the source; every other
constructor models a `panic!`/`assert_eq!`/`expect` process abort. -/
inductive PBError where
  | truncated
  | invalidUtf8
  | panicUnknownOpcode (b : Nat)
  | panicUnknownTypeTag (b : Nat)
  | panicUnknownQualifier (b : Nat)
  | panicAssert
  | panicUnsupportedParamType
  | panicMatrix
  | panicMetadataOnTexture
deriving DecidableEq, Repr

/-- Whether the failure models a process abort (as opposed to a typed,
recoverable `Result::Err`). -/
def PBError.isPanic : PBError → Bool
  | .truncated => false
  | .invalidUtf8 => false
  | _ => true

/-- Register channel, source enum `PixelBenderRegChannel`. -/
inductive PixelBenderRegChannel where
  | R
  | G
  | B
  | A
deriving DecidableEq, Repr

/-- The constant array `PixelBenderRegChannel::RGBA` of the source. -/
def PixelBenderRegChannel.RGBA : List PixelBenderRegChannel :=
  [.R, .G, .B, .A]

/-- Register kind, source enum `PixelBenderRegKind`. -/
inductive PixelBenderRegKind where
  | Float
  | Int
deriving DecidableEq, Repr

/-- Operand descriptor, source struct `PixelBenderReg`. -/
structure PixelBenderReg where
  index : Nat
  channels : List PixelBenderRegChannel
  kind : PixelBenderRegKind
deriving DecidableEq, Repr

/-- Type tag, source enum `PixelBenderTypeOpcode`. -/
inductive PixelBenderTypeOpcode where
  | TFloat
  | TFloat2
  | TFloat3
  | TFloat4
  | TFloat2x2
  | TFloat3x3
  | TFloat4x4
  | TInt
  | TInt2
  | TInt3
  | TInt4
  | TString
deriving DecidableEq, Repr

/-- The `num_derive::FromPrimitive` conversion for the type tags. -/
def PixelBenderTypeOpcode.fromU8 : Nat → Option PixelBenderTypeOpcode
  | 0x1 => some .TFloat
  | 0x2 => some .TFloat2
  | 0x3 => some .TFloat3
  | 0x4 => some .TFloat4
  | 0x5 => some .TFloat2x2
  | 0x6 => some .TFloat3x3
  | 0x7 => some .TFloat4x4
  | 0x8 => some .TInt
  | 0x9 => some .TInt2
  | 0xA => some .TInt3
  | 0xB => some .TInt4
  | 0xC => some .TString
  | _ => none

/-- The matrix-tag test performed by the `PBJParam` arm of `read_op`
(`TFloat2x2 | TFloat3x3 | TFloat4x4`). -/
def PixelBenderTypeOpcode.isMatrix : PixelBenderTypeOpcode → Bool
  | .TFloat2x2 => true
  | .TFloat3x3 => true
  | .TFloat4x4 => true
  | _ => false

/-- Literal value, source enum `PixelBenderType`.  Floats are raw
32-bit patterns, ints are the signed 16-bit values, strings are lists
of code points. -/
inductive PixelBenderType where
  | TFloat (a : Nat)
  | TFloat2 (a b : Nat)
  | TFloat3 (a b c : Nat)
  | TFloat4 (a b c d : Nat)
  | TFloat2x2 (m : List Nat)
  | TFloat3x3 (m : List Nat)
  | TFloat4x4 (m : List Nat)
  | TInt (a : Int)
  | TInt2 (a b : Int)
  | TInt3 (a b c : Int)
  | TInt4 (a b c d : Int)
  | TString (s : List Nat)
deriving DecidableEq, Repr

/-- Parameter qualifier, source enum `PixelBenderParamQualifier`. -/
inductive PixelBenderParamQualifier where
  | Input
  | Output
deriving DecidableEq, Repr

/-- The `num_derive::FromPrimitive` conversion for qualifiers
(`Input = 1`, `Output = 2`). -/
def PixelBenderParamQualifier.fromU8 : Nat → Option PixelBenderParamQualifier
  | 1 => some .Input
  | 2 => some .Output
  | _ => none

/-- Instruction opcode byte table, source enum `Opcode`. -/
inductive Opcode where
  | Nop
  | Add
  | Sub
  | Mul
  | Rcp
  | Div
  | Atan2
  | Pow
  | Mod
  | Min
  | Max
  | Step
  | Sin
  | Cos
  | Tan
  | Asin
  | Acos
  | Atan
  | Exp
  | Exp2
  | Log
  | Log2
  | Sqrt
  | RSqrt
  | Abs
  | Sign
  | Floor
  | Ceil
  | Fract
  | Mov
  | FloatToInt
  | IntToFloat
  | MatMatMul
  | VecMatMul
  | MatVecMul
  | Normalize
  | Length
  | Distance
  | DotProduct
  | CrossProduct
  | Equal
  | NotEqual
  | LessThan
  | LessThanEqual
  | LogicalNot
  | LogicalAnd
  | LogicalOr
  | LogicalXor
  | SampleNearest
  | SampleLinear
  | LoadIntOrFloat
  | Loop
  | If
  | Else
  | EndIf
  | FloatToBool
  | BoolToFloat
  | IntToBool
  | BoolToInt
  | VectorEqual
  | VectorNotEqual
  | BoolAny
  | BoolAll
  | PBJMeta1
  | PBJParam
  | PBJMeta2
  | PBJParamTexture
  | Name
  | Version
deriving DecidableEq, Repr

/-- The `num_derive::FromPrimitive` conversion for opcode bytes. -/
def Opcode.fromU8 : Nat → Option Opcode
  | 0x0 => some .Nop
  | 0x1 => some .Add
  | 0x2 => some .Sub
  | 0x3 => some .Mul
  | 0x4 => some .Rcp
  | 0x5 => some .Div
  | 0x6 => some .Atan2
  | 0x7 => some .Pow
  | 0x8 => some .Mod
  | 0x9 => some .Min
  | 0xA => some .Max
  | 0xB => some .Step
  | 0xC => some .Sin
  | 0xD => some .Cos
  | 0xE => some .Tan
  | 0xF => some .Asin
  | 0x10 => some .Acos
  | 0x11 => some .Atan
  | 0x12 => some .Exp
  | 0x13 => some .Exp2
  | 0x14 => some .Log
  | 0x15 => some .Log2
  | 0x16 => some .Sqrt
  | 0x17 => some .RSqrt
  | 0x18 => some .Abs
  | 0x19 => some .Sign
  | 0x1A => some .Floor
  | 0x1B => some .Ceil
  | 0x1C => some .Fract
  | 0x1D => some .Mov
  | 0x1E => some .FloatToInt
  | 0x1F => some .IntToFloat
  | 0x20 => some .MatMatMul
  | 0x21 => some .VecMatMul
  | 0x22 => some .MatVecMul
  | 0x23 => some .Normalize
  | 0x24 => some .Length
  | 0x25 => some .Distance
  | 0x26 => some .DotProduct
  | 0x27 => some .CrossProduct
  | 0x28 => some .Equal
  | 0x29 => some .NotEqual
  | 0x2A => some .LessThan
  | 0x2B => some .LessThanEqual
  | 0x2C => some .LogicalNot
  | 0x2D => some .LogicalAnd
  | 0x2E => some .LogicalOr
  | 0x2F => some .LogicalXor
  | 0x30 => some .SampleNearest
  | 0x31 => some .SampleLinear
  | 0x32 => some .LoadIntOrFloat
  | 0x33 => some .Loop
  | 0x34 => some .If
  | 0x35 => some .Else
  | 0x36 => some .EndIf
  | 0x37 => some .FloatToBool
  | 0x38 => some .BoolToFloat
  | 0x39 => some .IntToBool
  | 0x3A => some .BoolToInt
  | 0x3B => some .VectorEqual
  | 0x3C => some .VectorNotEqual
  | 0x3D => some .BoolAny
  | 0x3E => some .BoolAll
  | 0xA0 => some .PBJMeta1
  | 0xA1 => some .PBJParam
  | 0xA2 => some .PBJMeta2
  | 0xA3 => some .PBJParamTexture
  | 0xA4 => some .Name
  | 0xA5 => some .Version
  | _ => none

/-- Decoded instruction, source enum `Operation`. -/
inductive Operation where
  | Nop
  | Normal (opcode : Opcode) (dst : PixelBenderReg) (src : PixelBenderReg)
  | LoadInt (dst : PixelBenderReg) (val : Int)
  | LoadFloat (dst : PixelBenderReg) (val : Nat)
  | If (src : PixelBenderReg)
  | SampleNearest (dst : PixelBenderReg) (src : PixelBenderReg) (tf : Nat)
  | SampleLinear (dst : PixelBenderReg) (src : PixelBenderReg) (tf : Nat)
  | Else
  | EndIf
deriving DecidableEq, Repr

/-- Metadata entry, source struct `PixelBenderMetadata`. -/
structure PixelBenderMetadata where
  key : List Nat
  value : PixelBenderType
deriving DecidableEq, Repr

/-- Declared shader parameter, source enum `PixelBenderParam`. -/
inductive PixelBenderParam where
  | Normal (qualifier : PixelBenderParamQualifier)
      (param_type : PixelBenderTypeOpcode) (reg : PixelBenderReg)
      (name : List Nat) (metadata : List PixelBenderMetadata)
  | Texture (index : Nat) (channels : Nat) (name : List Nat)
deriving DecidableEq, Repr

/-- The decoded program, source struct `PixelBenderShader`. -/
structure PixelBenderShader where
  name : List Nat
  version : Int
  params : List PixelBenderParam
  metadata : List PixelBenderMetadata
  operations : List Operation
deriving DecidableEq, Repr

/-- Read one byte from the cursor (`read_u8` of `byteorder`); an empty
buffer is the I/O `UnexpectedEof` error, surfaced by `?` as `Err`. -/
def read_u8 : Bytes → Except PBError (Nat × Bytes)
  | [] => .error .truncated
  | b :: rest => .ok (b, rest)

/-- Read a little-endian unsigned 16-bit integer
(`read_u16::<LittleEndian>`). -/
def read_u16_le (d : Bytes) : Except PBError (Nat × Bytes) :=
  match read_u8 d with
  | .error e => .error e
  | .ok (b0, d) =>
    match read_u8 d with
    | .error e => .error e
    | .ok (b1, d) => .ok (b0 + b1 * 256, d)

/-- Read a little-endian signed 16-bit integer
(`read_i16::<LittleEndian>`). -/
def read_i16_le (d : Bytes) : Except PBError (Int × Bytes) :=
  match read_u16_le d with
  | .error e => .error e
  | .ok (v, d) =>
    .ok (if v < 32768 then (v : Int) else (v : Int) - 65536, d)

/-- Read a little-endian unsigned 32-bit integer
(`read_u32::<LittleEndian>`). -/
def read_u32_le (d : Bytes) : Except PBError (Nat × Bytes) :=
  match read_u8 d with
  | .error e => .error e
  | .ok (b0, d) =>
    match read_u8 d with
    | .error e => .error e
    | .ok (b1, d) =>
      match read_u8 d with
      | .error e => .error e
      | .ok (b2, d) =>
        match read_u8 d with
        | .error e => .error e
        | .ok (b3, d) =>
          .ok (b0 + b1 * 256 + b2 * 65536 + b3 * 16777216, d)

/-- Read a little-endian signed 32-bit integer
(`read_i32::<LittleEndian>`). -/
def read_i32_le (d : Bytes) : Except PBError (Int × Bytes) :=
  match read_u32_le d with
  | .error e => .error e
  | .ok (v, d) =>
    .ok (if v < 2147483648 then (v : Int) else (v : Int) - 4294967296, d)

/-- Source `read_float`: a big-endian 32-bit float
(`read_f32::<BigEndian>`), represented by its raw bit pattern. -/
def read_float (d : Bytes) : Except PBError (Nat × Bytes) :=
  match read_u8 d with
  | .error e => .error e
  | .ok (b0, d) =>
    match read_u8 d with
    | .error e => .error e
    | .ok (b1, d) =>
      match read_u8 d with
      | .error e => .error e
      | .ok (b2, d) =>
        match read_u8 d with
        | .error e => .error e
        | .ok (b3, d) =>
          .ok (b0 * 16777216 + b1 * 65536 + b2 * 256 + b3, d)

/-- Source `read_uint24`: three bytes combined as
`ch1 | (ch2 << 8) | (ch3 << 16)`. -/
def read_uint24 (d : Bytes) : Except PBError (Nat × Bytes) :=
  match read_u8 d with
  | .error e => .error e
  | .ok (ch1, d) =>
    match read_u8 d with
    | .error e => .error e
    | .ok (ch2, d) =>
      match read_u8 d with
      | .error e => .error e
      | .ok (ch3, d) =>
        .ok (ch1 ||| (ch2 <<< 8) ||| (ch3 <<< 16), d)

/-- Source `read_string`: bytes appended one at a time as characters
until a zero byte is consumed; the terminator is not included. -/
def read_string : Bytes → Except PBError (List Nat × Bytes)
  | [] => .error .truncated
  | b :: rest =>
    if b = 0 then .ok ([], rest)
    else
      match read_string rest with
      | .error e => .error e
      | .ok (s, d) => .ok (b :: s, d)

/-- The `read_exact` call of the `Name` arm: exactly `n` raw bytes. -/
def read_exact : Nat → Bytes → Except PBError (List Nat × Bytes)
  | 0, d => .ok ([], d)
  | _ + 1, [] => .error .truncated
  | n + 1, b :: rest =>
    match read_exact n rest with
    | .error e => .error e
    | .ok (l, d) => .ok (b :: l, d)

/-- Whether a byte is a UTF-8 continuation byte (`0x80..=0xBF`). -/
def isUtf8Cont (b : Nat) : Bool := 0x80 ≤ b && b < 0xC0

/-- Modelling `String::from_utf8`: strict UTF-8 validation and
decoding to code points (shortest form only, surrogates and values
above `0x10FFFF` rejected), `none` on invalid input. -/
def decodeUtf8 : List Nat → Option (List Nat)
  | [] => some []
  | b0 :: rest =>
    if b0 < 0x80 then
      match decodeUtf8 rest with
      | some cs => some (b0 :: cs)
      | none => none
    else if b0 < 0xC2 then none
    else if b0 < 0xE0 then
      match rest with
      | b1 :: rest2 =>
        if isUtf8Cont b1 then
          match decodeUtf8 rest2 with
          | some cs => some (((b0 - 0xC0) * 64 + (b1 - 0x80)) :: cs)
          | none => none
        else none
      | [] => none
    else if b0 < 0xF0 then
      match rest with
      | b1 :: b2 :: rest3 =>
        if isUtf8Cont b1 && isUtf8Cont b2 &&
            (b0 ≠ 0xE0 || 0xA0 ≤ b1) && (b0 ≠ 0xED || b1 < 0xA0) then
          match decodeUtf8 rest3 with
          | some cs =>
            some (((b0 - 0xE0) * 4096 + (b1 - 0x80) * 64 + (b2 - 0x80)) :: cs)
          | none => none
        else none
      | _ => none
    else if b0 < 0xF5 then
      match rest with
      | b1 :: b2 :: b3 :: rest4 =>
        if isUtf8Cont b1 && isUtf8Cont b2 && isUtf8Cont b3 &&
            (b0 ≠ 0xF0 || 0x90 ≤ b1) && (b0 ≠ 0xF4 || b1 < 0x90) then
          match decodeUtf8 rest4 with
          | some cs =>
            some (((b0 - 0xF0) * 262144 + (b1 - 0x80) * 4096 +
              (b2 - 0x80) * 64 + (b3 - 0x80)) :: cs)
          | none => none
        else none
      | _ => none
    else none

/-- Source `read_src_reg`: 32-bit word plus operand count.  The high
16 bits are the swizzle; channel `i` is `CHANNELS` indexed by the
2-bit code at offset `6 - i * 2`.  The source function's `Result` is
always `Ok`, so it is modelled as a pure function. -/
def read_src_reg (val : Nat) (size : Nat) : PixelBenderReg :=
  let swizzle := val >>> 16
  let channels := (List.range size).map fun i =>
    PixelBenderRegChannel.RGBA.getD ((swizzle >>> (6 - i * 2)) &&& 3) .R
  let kind := if val &&& 0x8000 ≠ 0 then PixelBenderRegKind.Int
    else PixelBenderRegKind.Float
  { index := val &&& 0x7FFF, channels := channels, kind := kind }

/-- Source `read_dst_reg`: 16-bit word plus channel mask.  Channels
R,G,B,A are pushed in that order when mask bits 0x8,0x4,0x2,0x1 are
set.  Always `Ok` in the source, so modelled as a pure function. -/
def read_dst_reg (val : Nat) (mask : Nat) : PixelBenderReg :=
  let channels :=
    (if mask &&& 0x8 ≠ 0 then [PixelBenderRegChannel.R] else []) ++
    (if mask &&& 0x4 ≠ 0 then [PixelBenderRegChannel.G] else []) ++
    (if mask &&& 0x2 ≠ 0 then [PixelBenderRegChannel.B] else []) ++
    (if mask &&& 0x1 ≠ 0 then [PixelBenderRegChannel.A] else [])
  let kind := if val &&& 0x8000 ≠ 0 then PixelBenderRegKind.Int
    else PixelBenderRegKind.Float
  { index := val &&& 0x7FFF, channels := channels, kind := kind }

/-- Sequence of `n` float reads, used by the matrix arms of
`read_value` (the `2x2` arm unrolls four reads, the `3x3`/`4x4` arms
loop; all three read the same sequence). -/
def read_floats : Nat → Bytes → Except PBError (List Nat × Bytes)
  | 0, d => .ok ([], d)
  | n + 1, d =>
    match read_float d with
    | .error e => .error e
    | .ok (f, d) =>
      match read_floats n d with
      | .error e => .error e
      | .ok (l, d) => .ok (f :: l, d)

/-- Source `read_value`: reads the literal whose shape the type tag
fixes. -/
def read_value (d : Bytes) (opcode : PixelBenderTypeOpcode) :
    Except PBError (PixelBenderType × Bytes) :=
  match opcode with
  | .TFloat =>
    match read_float d with
    | .error e => .error e
    | .ok (a, d) => .ok (.TFloat a, d)
  | .TFloat2 =>
    match read_float d with
    | .error e => .error e
    | .ok (a, d) =>
      match read_float d with
      | .error e => .error e
      | .ok (b, d) => .ok (.TFloat2 a b, d)
  | .TFloat3 =>
    match read_float d with
    | .error e => .error e
    | .ok (a, d) =>
      match read_float d with
      | .error e => .error e
      | .ok (b, d) =>
        match read_float d with
        | .error e => .error e
        | .ok (c, d) => .ok (.TFloat3 a b c, d)
  | .TFloat4 =>
    match read_float d with
    | .error e => .error e
    | .ok (a, d) =>
      match read_float d with
      | .error e => .error e
      | .ok (b, d) =>
        match read_float d with
        | .error e => .error e
        | .ok (c, d) =>
          match read_float d with
          | .error e => .error e
          | .ok (e4, d) => .ok (.TFloat4 a b c e4, d)
  | .TFloat2x2 =>
    match read_floats 4 d with
    | .error e => .error e
    | .ok (m, d) => .ok (.TFloat2x2 m, d)
  | .TFloat3x3 =>
    match read_floats 9 d with
    | .error e => .error e
    | .ok (m, d) => .ok (.TFloat3x3 m, d)
  | .TFloat4x4 =>
    match read_floats 16 d with
    | .error e => .error e
    | .ok (m, d) => .ok (.TFloat4x4 m, d)
  | .TInt =>
    match read_i16_le d with
    | .error e => .error e
    | .ok (a, d) => .ok (.TInt a, d)
  | .TInt2 =>
    match read_i16_le d with
    | .error e => .error e
    | .ok (a, d) =>
      match read_i16_le d with
      | .error e => .error e
      | .ok (b, d) => .ok (.TInt2 a b, d)
  | .TInt3 =>
    match read_i16_le d with
    | .error e => .error e
    | .ok (a, d) =>
      match read_i16_le d with
      | .error e => .error e
      | .ok (b, d) =>
        match read_i16_le d with
        | .error e => .error e
        | .ok (c, d) => .ok (.TInt3 a b c, d)
  | .TInt4 =>
    match read_i16_le d with
    | .error e => .error e
    | .ok (a, d) =>
      match read_i16_le d with
      | .error e => .error e
      | .ok (b, d) =>
        match read_i16_le d with
        | .error e => .error e
        | .ok (c, d) =>
          match read_i16_le d with
          | .error e => .error e
          | .ok (e4, d) => .ok (.TInt4 a b c e4, d)
  | .TString =>
    match read_string d with
    | .error e => .error e
    | .ok (s, d) => .ok (.TString s, d)

/-- Source `apply_metadata`: move the pending metadata into the most
recently appended parameter, or into the program metadata when no
parameter exists; a non-empty flush onto a texture parameter is a
panic.  The caller's pending list is reset (`mem::take`), which the
callers below model by continuing with `[]`. -/
def apply_metadata (shader : PixelBenderShader)
    (metadata : List PixelBenderMetadata) :
    Except PBError PixelBenderShader :=
  match shader.params.getLast? with
  | some (.Normal q pt reg name _) =>
    .ok { shader with
      params := shader.params.dropLast ++ [.Normal q pt reg name metadata] }
  | some (.Texture ..) =>
    if metadata.isEmpty then .ok shader else .error .panicMetadataOnTexture
  | none => .ok { shader with metadata := metadata }

/-- Source `read_op`: read one opcode byte and dispatch on the
per-opcode field grammar, updating the shader under construction and
the pending metadata list.  `assert_eq!`, `panic!` and
`expect`/`unwrap_or_else` aborts of the source appear as the
panic-class `PBError` constructors. -/
def read_op (data : Bytes) (shader : PixelBenderShader)
    (metadata : List PixelBenderMetadata) :
    Except PBError (Bytes × PixelBenderShader × List PixelBenderMetadata) :=
  match read_u8 data with
  | .error e => .error e
  | .ok (raw, data) =>
  match Opcode.fromU8 raw with
  | none => .error (.panicUnknownOpcode raw)
  | some opcode =>
  match opcode with
  | .Nop =>
    match read_u32_le data with
    | .error e => .error e
    | .ok (v1, data) =>
    if v1 ≠ 0 then .error .panicAssert else
    match read_u16_le data with
    | .error e => .error e
    | .ok (v2, data) =>
    if v2 ≠ 0 then .error .panicAssert else
    .ok (data, { shader with operations := shader.operations ++ [.Nop] },
      metadata)
  | .PBJMeta1 | .PBJMeta2 =>
    match read_u8 data with
    | .error e => .error e
    | .ok (meta_type, data) =>
    match read_string data with
    | .error e => .error e
    | .ok (meta_key, data) =>
    match PixelBenderTypeOpcode.fromU8 meta_type with
    | none => .error (.panicUnknownTypeTag meta_type)
    | some t =>
    match read_value data t with
    | .error e => .error e
    | .ok (meta_value, data) =>
    .ok (data, shader, metadata ++ [⟨meta_key, meta_value⟩])
  | .PBJParam =>
    match read_u8 data with
    | .error e => .error e
    | .ok (qualifier, data) =>
    match read_u8 data with
    | .error e => .error e
    | .ok (param_type, data) =>
    match read_u16_le data with
    | .error e => .error e
    | .ok (reg, data) =>
    match read_u8 data with
    | .error e => .error e
    | .ok (mask, data) =>
    match read_string data with
    | .error e => .error e
    | .ok (name, data) =>
    match PixelBenderTypeOpcode.fromU8 param_type with
    | none => .error (.panicUnknownTypeTag param_type)
    | some pt =>
    match PixelBenderParamQualifier.fromU8 qualifier with
    | none => .error (.panicUnknownQualifier qualifier)
    | some q =>
    match apply_metadata shader metadata with
    | .error e => .error e
    | .ok shader =>
    if pt.isMatrix then .error .panicUnsupportedParamType else
    let dst_reg := read_dst_reg reg mask
    .ok (data,
      { shader with params := shader.params ++ [.Normal q pt dst_reg name []] },
      [])
  | .PBJParamTexture =>
    match read_u8 data with
    | .error e => .error e
    | .ok (index, data) =>
    match read_u8 data with
    | .error e => .error e
    | .ok (channels, data) =>
    match read_string data with
    | .error e => .error e
    | .ok (name, data) =>
    match apply_metadata shader metadata with
    | .error e => .error e
    | .ok shader =>
    .ok (data,
      { shader with params := shader.params ++ [.Texture index channels name] },
      [])
  | .Name =>
    match read_u16_le data with
    | .error e => .error e
    | .ok (len, data) =>
    match read_exact len data with
    | .error e => .error e
    | .ok (string_bytes, data) =>
    match decodeUtf8 string_bytes with
    | none => .error .invalidUtf8
    | some cs => .ok (data, { shader with name := cs }, metadata)
  | .Version =>
    match read_i32_le data with
    | .error e => .error e
    | .ok (v, data) => .ok (data, { shader with version := v }, metadata)
  | .If =>
    match read_uint24 data with
    | .error e => .error e
    | .ok (z1, data) =>
    if z1 ≠ 0 then .error .panicAssert else
    match read_uint24 data with
    | .error e => .error e
    | .ok (src, data) =>
    match read_u8 data with
    | .error e => .error e
    | .ok (z2, data) =>
    if z2 ≠ 0 then .error .panicAssert else
    let src_reg := read_src_reg src 1
    .ok (data, { shader with operations := shader.operations ++ [.If src_reg] },
      metadata)
  | .Else =>
    match read_u32_le data with
    | .error e => .error e
    | .ok (z1, data) =>
    if z1 ≠ 0 then .error .panicAssert else
    match read_uint24 data with
    | .error e => .error e
    | .ok (z2, data) =>
    if z2 ≠ 0 then .error .panicAssert else
    .ok (data, { shader with operations := shader.operations ++ [.Else] },
      metadata)
  | .EndIf =>
    match read_u32_le data with
    | .error e => .error e
    | .ok (z1, data) =>
    if z1 ≠ 0 then .error .panicAssert else
    match read_uint24 data with
    | .error e => .error e
    | .ok (z2, data) =>
    if z2 ≠ 0 then .error .panicAssert else
    .ok (data, { shader with operations := shader.operations ++ [.EndIf] },
      metadata)
  | .LoadIntOrFloat =>
    match read_u16_le data with
    | .error e => .error e
    | .ok (dst, data) =>
    match read_u8 data with
    | .error e => .error e
    | .ok (mask, data) =>
    if mask &&& 0xF ≠ 0 then .error .panicAssert else
    let dst_reg := read_dst_reg dst (mask >>> 4)
    match dst_reg.kind with
    | .Float =>
      match read_float data with
      | .error e => .error e
      | .ok (val, data) =>
      .ok (data,
        { shader with operations := shader.operations ++ [.LoadFloat dst_reg val] },
        metadata)
    | .Int =>
      match read_i32_le data with
      | .error e => .error e
      | .ok (val, data) =>
      .ok (data,
        { shader with operations := shader.operations ++ [.LoadInt dst_reg val] },
        metadata)
  | .SampleNearest =>
    match read_u16_le data with
    | .error e => .error e
    | .ok (dst, data) =>
    match read_u8 data with
    | .error e => .error e
    | .ok (mask, data) =>
    match read_uint24 data with
    | .error e => .error e
    | .ok (src, data) =>
    match read_u8 data with
    | .error e => .error e
    | .ok (tf, data) =>
    let dst_reg := read_dst_reg dst (mask >>> 4)
    let src_reg := read_src_reg src 2
    .ok (data,
      { shader with
        operations := shader.operations ++ [.SampleNearest dst_reg src_reg tf] },
      metadata)
  | .SampleLinear =>
    match read_u16_le data with
    | .error e => .error e
    | .ok (dst, data) =>
    match read_u8 data with
    | .error e => .error e
    | .ok (mask, data) =>
    match read_uint24 data with
    | .error e => .error e
    | .ok (src, data) =>
    match read_u8 data with
    | .error e => .error e
    | .ok (tf, data) =>
    let dst_reg := read_dst_reg dst (mask >>> 4)
    let src_reg := read_src_reg src 2
    .ok (data,
      { shader with
        operations := shader.operations ++ [.SampleLinear dst_reg src_reg tf] },
      metadata)
  | op =>
    match read_u16_le data with
    | .error e => .error e
    | .ok (dst, data) =>
    match read_u8 data with
    | .error e => .error e
    | .ok (mask, data) =>
    let size := (mask &&& 0x3) + 1
    let matrix := (mask >>> 2) &&& 3
    match read_uint24 data with
    | .error e => .error e
    | .ok (src, data) =>
    match read_u8 data with
    | .error e => .error e
    | .ok (z, data) =>
    if z ≠ 0 then .error .panicAssert else
    let mask2 := mask >>> 4
    let src_reg := read_src_reg src size
    if matrix ≠ 0 then
      if src >>> 16 ≠ 0 then .error .panicAssert
      else if size ≠ 1 then .error .panicAssert
      else .error .panicMatrix
    else
      let dst_reg := read_dst_reg dst mask2
      .ok (data,
        { shader with
          operations := shader.operations ++ [.Normal op dst_reg src_reg] },
        metadata)

/-- The initial `PixelBenderShader` value built at the top of
`parse_shader`. -/
def initShader : PixelBenderShader :=
  { name := [], version := 0, params := [], metadata := [], operations := [] }

/-- The `while !data.is_empty()` loop of `parse_shader`, with fuel.
Each successful `read_op` consumes at least the opcode byte, so a fuel
of the buffer length (what `parse_shader` passes) never runs out. -/
def parseLoop : Nat → Bytes → PixelBenderShader →
    List PixelBenderMetadata → Except PBError PixelBenderShader
  | _, [], shader, metadata => apply_metadata shader metadata
  | 0, _ :: _, _, _ => .error .truncated
  | fuel + 1, b :: rest, shader, metadata =>
    match read_op (b :: rest) shader metadata with
    | .error e => .error e
    | .ok (data, shader, metadata) => parseLoop fuel data shader metadata

/-- Source `parse_shader`: run the loop over the whole buffer starting
from `initShader` and an empty pending-metadata list, with a final
flush at end of stream. -/
def parse_shader (data : Bytes) : Except PBError PixelBenderShader :=
  parseLoop data.length data initShader []

/-- The mask bit (of 0x8, 0x4, 0x2, 0x1) governing a destination
channel, as the spec assigns them: R bit 3, G bit 2, B bit 1, A bit 0. -/
def PixelBenderRegChannel.maskBit : PixelBenderRegChannel → Nat
  | .R => 3
  | .G => 2
  | .B => 1
  | .A => 0

/-- Whether a parameter is a `Normal` parameter with a matrix type. -/
def PixelBenderParam.isMatrixNormal : PixelBenderParam → Bool
  | .Normal _ pt _ _ _ => pt.isMatrix
  | .Texture .. => false

/-- All parameters of a list are free of matrix-typed `Normal`
parameters. -/
def goodParams (l : List PixelBenderParam) : Bool :=
  l.all fun p => ! p.isMatrixNormal

/-- Claim C9: parse_shader on the empty buffer succeeds with the
initial program: empty name, version 0, and empty parameter, metadata
and operation sequences. -/
theorem parse_shader_empty_buffer :
    parse_shader [] = .ok
      { name := [], version := 0, params := [], metadata := [],
        operations := [] } := by
  rfl

/-- Claim C8: decoding is deterministic.  The embedding of
`parse_shader` is a pure function of the byte buffer alone (the source
touches no state outside its input), so two decodes of the same buffer
are structurally identical results. -/
theorem parse_shader_deterministic (data : Bytes) :
    parse_shader data = parse_shader data := rfl

/-- The byte buffer of the C4 scenario: Meta(k1,1), Meta(k2,2),
Param(p1), Meta(k3,3), Param(p2), end of stream, with `TInt` metadata
values and the ASCII names k1,k2,k3,p1,p2. -/
def metadataScenarioBuf : Bytes :=
  [0xA0, 0x08, 0x6B, 0x31, 0x00, 0x01, 0x00] ++
  [0xA0, 0x08, 0x6B, 0x32, 0x00, 0x02, 0x00] ++
  [0xA1, 0x01, 0x01, 0x00, 0x00, 0x08, 0x70, 0x31, 0x00] ++
  [0xA0, 0x08, 0x6B, 0x33, 0x00, 0x03, 0x00] ++
  [0xA1, 0x01, 0x01, 0x01, 0x00, 0x04, 0x70, 0x32, 0x00]

/-- Claim C4: pending metadata is flushed to the most recently
appended parameter (or to the program-level metadata when none exists)
before each Param opcode appends, and once more at end of stream: the
sequence Meta(k1,1), Meta(k2,2), Param(p1), Meta(k3,3), Param(p2)
decodes with program metadata [(k1,1),(k2,2)], p1 metadata [(k3,3)]
and p2 metadata []. -/
theorem metadata_association_scenario :
    parse_shader metadataScenarioBuf = .ok
      { name := [], version := 0,
        params := [
          .Normal .Input .TFloat
            { index := 0, channels := [.R], kind := .Float }
            [0x70, 0x31] [⟨[0x6B, 0x33], .TInt 3⟩],
          .Normal .Input .TFloat
            { index := 1, channels := [.G], kind := .Float }
            [0x70, 0x32] []],
        metadata := [⟨[0x6B, 0x31], .TInt 1⟩, ⟨[0x6B, 0x32], .TInt 2⟩],
        operations := [] } := by
  rfl

/-- Claim C1 counterexample: on the one-byte buffer [0x3F] (an unknown
opcode byte) the decode does not produce a typed, recoverable error
value: it aborts through the `expect` panic, modelled by the
panic-class outcome `panicUnknownOpcode`. -/
theorem unknown_opcode_aborts :
    parse_shader [0x3F] = .error (.panicUnknownOpcode 0x3F) ∧
    PBError.isPanic (.panicUnknownOpcode 0x3F) = true := by
  constructor
  · rfl
  · rfl

/-- Claim C1 (amended): the decoder is total and never reads out of
bounds, but only buffer truncation and invalid UTF-8 in the `Name`
payload are returned as recoverable error values; the malformed-input
conditions — unknown opcode byte, unknown type-tag byte, nonzero
must-be-zero reserved field, matrix-typed parameter, matrix-mode
arithmetic, and non-empty pending metadata flushed onto a texture
parameter — abort via panic (a process abort), not an error result. -/
theorem malformed_input_outcomes :
    (parse_shader [0x3F] = .error (.panicUnknownOpcode 0x3F) ∧
      PBError.isPanic (.panicUnknownOpcode 0x3F) = true) ∧
    (parse_shader [0xA0, 0x00, 0x00] = .error (.panicUnknownTypeTag 0) ∧
      PBError.isPanic (.panicUnknownTypeTag 0) = true) ∧
    (parse_shader [0x00, 0x01, 0x00, 0x00, 0x00] = .error .panicAssert ∧
      PBError.isPanic .panicAssert = true) ∧
    (parse_shader [0xA1, 0x01, 0x05, 0x00, 0x00, 0x00, 0x00] =
        .error .panicUnsupportedParamType ∧
      PBError.isPanic .panicUnsupportedParamType = true) ∧
    (parse_shader [0x01, 0x00, 0x00, 0x04, 0x00, 0x00, 0x00, 0x00] =
        .error .panicMatrix ∧
      PBError.isPanic .panicMatrix = true) ∧
    (parse_shader [0xA3, 0x00, 0x00, 0x00, 0xA0, 0x08, 0x00, 0x00, 0x00] =
        .error .panicMetadataOnTexture ∧
      PBError.isPanic .panicMetadataOnTexture = true) ∧
    (parse_shader [0x00] = .error .truncated ∧
      PBError.isPanic .truncated = false) ∧
    (parse_shader [0xA4, 0x01, 0x00, 0xFF] = .error .invalidUtf8 ∧
      PBError.isPanic .invalidUtf8 = false) := by
  refine ⟨⟨rfl, rfl⟩, ⟨rfl, rfl⟩, ⟨rfl, rfl⟩, ⟨rfl, rfl⟩, ⟨rfl, rfl⟩,
    ⟨rfl, rfl⟩, ⟨rfl, rfl⟩, ⟨rfl, rfl⟩⟩

/-- Claim C7: the null-terminated string reader returns the bytes
before the first zero byte verbatim (terminator excluded, any nonzero
byte value accepted), and fails as truncated when the buffer ends
before a zero byte. -/
theorem read_string_law (l rest : Bytes) (h : ∀ b ∈ l, b ≠ 0) :
    read_string (l ++ 0 :: rest) = .ok (l, rest) ∧
    read_string l = .error .truncated := by
  induction l with
  | nil => exact ⟨rfl, rfl⟩
  | cons b t ih =>
    have hb : b ≠ 0 := h b (List.mem_cons_self b t)
    have ht : ∀ x ∈ t, x ≠ 0 := fun x hx => h x (List.mem_cons_of_mem b hx)
    obtain ⟨ih1, ih2⟩ := ih ht
    constructor
    · simp only [List.cons_append, read_string, if_neg hb, List.append_eq, ih1]
    · simp only [read_string, if_neg hb, ih2]

/-- Witness for C7 at the concrete bytes of the claim: [0x41,0x42,0x00]
decodes to the two characters "AB" and the unterminated [0x41,0x42]
fails as truncated. -/
theorem read_string_law_witness :
    read_string [0x41, 0x42, 0x00] = .ok ([0x41, 0x42], []) ∧
    read_string [0x41, 0x42] = .error .truncated :=
  read_string_law [0x41, 0x42] [] (by decide)

/-- Bitwise-and with a power of two is nonzero exactly when the
corresponding bit is set. -/
theorem land_two_pow_ne_zero (M k : Nat) :
    M &&& 2 ^ k ≠ 0 ↔ M.testBit k = true := by
  rw [Nat.and_two_pow]
  have hpow : (2 : Nat) ^ k ≠ 0 := by positivity
  cases h : M.testBit k <;> simp [hpow]

/-- Bitwise-and with 15 low bits is reduction mod 2^15. -/
theorem land_7FFF_eq_mod (W : Nat) : W &&& 0x7FFF = W % 32768 := by
  have h : (0x7FFF : Nat) = 2 ^ 15 - 1 := by norm_num
  rw [h, Nat.and_pow_two_sub_one_eq_mod]

/-- Bitwise-and with two low bits is reduction mod 4. -/
theorem land_3_eq_mod (x : Nat) : x &&& 3 = x % 4 := by
  have h : (3 : Nat) = 2 ^ 2 - 1 := by norm_num
  rw [h, Nat.and_pow_two_sub_one_eq_mod]

/-- Or-ing a value below 2^8 with a byte shifted left by 8 is
addition. -/
theorem or_shift8 (a b : Nat) (h : a < 256) : a ||| b <<< 8 = a + 256 * b := by
  have h8 : a < 2 ^ 8 := by norm_num at h ⊢; exact h
  rw [Nat.shiftLeft_eq, Nat.lor_comm, Nat.mul_comm b (2 ^ 8),
    ← Nat.mul_add_lt_is_or h8 b]
  ring

/-- Or-ing a value below 2^16 with a byte shifted left by 16 is
addition. -/
theorem or_shift16 (a b : Nat) (h : a < 65536) :
    a ||| b <<< 16 = a + 65536 * b := by
  have h16 : a < 2 ^ 16 := by norm_num at h ⊢; exact h
  rw [Nat.shiftLeft_eq, Nat.lor_comm, Nat.mul_comm b (2 ^ 16),
    ← Nat.mul_add_lt_is_or h16 b]
  ring

/-- Claim C2: for word W and channel mask M the decoded destination
register has index W mod 2^15, is an Int register exactly when bit 15
of W is set, and its channel list is exactly the R,G,B,A-ordered
subset whose mask bits 0x8, 0x4, 0x2, 0x1 are set. -/
theorem read_dst_reg_law (W M : Nat) :
    (read_dst_reg W M).index = W % 32768 ∧
    ((read_dst_reg W M).kind = .Int ↔ W.testBit 15 = true) ∧
    (read_dst_reg W M).channels =
      PixelBenderRegChannel.RGBA.filter fun c => M.testBit c.maskBit := by
  have e15 : W &&& 0x8000 ≠ 0 ↔ W.testBit 15 = true := by
    have h : (0x8000 : Nat) = 2 ^ 15 := by norm_num
    rw [h]
    exact land_two_pow_ne_zero W 15
  have e3 : M &&& 0x8 ≠ 0 ↔ M.testBit 3 = true := by
    have h : (0x8 : Nat) = 2 ^ 3 := by norm_num
    rw [h]
    exact land_two_pow_ne_zero M 3
  have e2 : M &&& 0x4 ≠ 0 ↔ M.testBit 2 = true := by
    have h : (0x4 : Nat) = 2 ^ 2 := by norm_num
    rw [h]
    exact land_two_pow_ne_zero M 2
  have e1 : M &&& 0x2 ≠ 0 ↔ M.testBit 1 = true := by
    have h : (0x2 : Nat) = 2 ^ 1 := by norm_num
    rw [h]
    exact land_two_pow_ne_zero M 1
  have e0 : M &&& 0x1 ≠ 0 ↔ M.testBit 0 = true := by
    have h : (0x1 : Nat) = 2 ^ 0 := by norm_num
    rw [h]
    exact land_two_pow_ne_zero M 0
  refine ⟨?_, ?_, ?_⟩
  · simp only [read_dst_reg]
    exact land_7FFF_eq_mod W
  · simp only [read_dst_reg]
    by_cases hb : W.testBit 15 = true
    · simp [e15, hb]
    · simp [e15, hb]
  · simp only [read_dst_reg]
    by_cases h3 : M.testBit 3 = true <;> by_cases h2 : M.testBit 2 = true <;>
      by_cases h1 : M.testBit 1 = true <;> by_cases h0 : M.testBit 0 = true <;>
      (first
        | have h0' : M % 2 = 1 := by
            rw [Nat.testBit_zero, decide_eq_true_eq] at h0; exact h0
        | have h0' : ¬ M % 2 = 1 := by
            rw [Nat.testBit_zero, decide_eq_true_eq] at h0; exact h0) <;>
      simp [PixelBenderRegChannel.RGBA, PixelBenderRegChannel.maskBit,
        List.filter, e3, e2, e1, e0, h3, h2, h1, h0, h0']

/-- Claim C3: for word W and operand count N between 1 and 4 the
decoded source register has index W mod 2^15, is Int exactly when bit
15 of W is set, and has exactly N channels where channel i is R,G,B,A
indexed by the 2-bit swizzle code at offset 6 - 2i of the high half of
W. -/
theorem read_src_reg_law (W N : Nat) (_hN1 : 1 ≤ N) (_hN4 : N ≤ 4) :
    (read_src_reg W N).index = W % 32768 ∧
    ((read_src_reg W N).kind = .Int ↔ W.testBit 15 = true) ∧
    (read_src_reg W N).channels.length = N ∧
    ∀ i, i < N →
      (read_src_reg W N).channels.getD i .R =
        PixelBenderRegChannel.RGBA.getD (((W >>> 16) >>> (6 - 2 * i)) % 4) .R := by
  have e15 : W &&& 0x8000 ≠ 0 ↔ W.testBit 15 = true := by
    have h : (0x8000 : Nat) = 2 ^ 15 := by norm_num
    rw [h]
    exact land_two_pow_ne_zero W 15
  refine ⟨?_, ?_, ?_, ?_⟩
  · simp only [read_src_reg]
    exact land_7FFF_eq_mod W
  · simp only [read_src_reg]
    by_cases hb : W.testBit 15 = true
    · simp [e15, hb]
    · simp [e15, hb]
  · simp [read_src_reg]
  · intro i hi
    simp only [read_src_reg, List.getD_eq_getElem?_getD, List.getElem?_map,
      List.getElem?_range hi, Option.map_some', Option.getD_some]
    rw [land_3_eq_mod, Nat.mul_comm 2 i]

/-- Witness for C3 at word 0x001B8005 (swizzle byte 0x1B selects
R,G,B,A; the 0x8000 bit makes it an Int register of index 5) with
operand count 4. -/
theorem read_src_reg_law_witness :
    (read_src_reg 0x001B8005 4).index = 0x001B8005 % 32768 ∧
    ((read_src_reg 0x001B8005 4).kind = .Int ↔
      Nat.testBit 0x001B8005 15 = true) ∧
    (read_src_reg 0x001B8005 4).channels.length = 4 ∧
    (read_src_reg 0x001B8005 4).channels.getD 0 .R =
      PixelBenderRegChannel.RGBA.getD (((0x001B8005 >>> 16) >>> (6 - 2 * 0)) % 4) .R ∧
    (read_src_reg 0x001B8005 4).channels.getD 1 .R =
      PixelBenderRegChannel.RGBA.getD (((0x001B8005 >>> 16) >>> (6 - 2 * 1)) % 4) .R ∧
    (read_src_reg 0x001B8005 4).channels.getD 2 .R =
      PixelBenderRegChannel.RGBA.getD (((0x001B8005 >>> 16) >>> (6 - 2 * 2)) % 4) .R ∧
    (read_src_reg 0x001B8005 4).channels.getD 3 .R =
      PixelBenderRegChannel.RGBA.getD (((0x001B8005 >>> 16) >>> (6 - 2 * 3)) % 4) .R := by
  have h := read_src_reg_law 0x001B8005 4 (by decide) (by decide)
  exact ⟨h.1, h.2.1, h.2.2.1, h.2.2.2 0 (by decide), h.2.2.2 1 (by decide),
    h.2.2.2 2 (by decide), h.2.2.2 3 (by decide)⟩

/-- Claim C6: multi-byte integer fields (16-bit, 24-bit and 32-bit,
signed and unsigned) are decoded little-endian — the first byte is the
least significant — while 32-bit float fields are decoded big-endian —
the first byte is the most significant; the float reader agrees with
the unsigned 32-bit integer reader only after reversing the four
bytes.  Signed values are the two's-complement (balanced-mod)
reading of the same little-endian integer. -/
theorem mixed_endianness_law (b0 b1 b2 b3 : Nat) (rest : Bytes)
    (h0 : b0 < 256) (h1 : b1 < 256) (h2 : b2 < 256) (h3 : b3 < 256) :
    read_u16_le (b0 :: b1 :: rest) = .ok (b0 + 256 * b1, rest) ∧
    read_uint24 (b0 :: b1 :: b2 :: rest) =
      .ok (b0 + 256 * b1 + 65536 * b2, rest) ∧
    read_u32_le (b0 :: b1 :: b2 :: b3 :: rest) =
      .ok (b0 + 256 * b1 + 65536 * b2 + 16777216 * b3, rest) ∧
    read_i16_le (b0 :: b1 :: rest) =
      .ok (((b0 + 256 * b1 : Nat) : Int).bmod 65536, rest) ∧
    read_i32_le (b0 :: b1 :: b2 :: b3 :: rest) =
      .ok (((b0 + 256 * b1 + 65536 * b2 + 16777216 * b3 : Nat) : Int).bmod
        4294967296, rest) ∧
    read_float (b0 :: b1 :: b2 :: b3 :: rest) =
      .ok (16777216 * b0 + 65536 * b1 + 256 * b2 + b3, rest) ∧
    read_float (b0 :: b1 :: b2 :: b3 :: rest) =
      read_u32_le (b3 :: b2 :: b1 :: b0 :: rest) := by
  have hu24 : b0 ||| b1 <<< 8 ||| b2 <<< 16 =
      b0 + 256 * b1 + 65536 * b2 := by
    rw [or_shift8 b0 b1 h0, or_shift16 (b0 + 256 * b1) b2 (by omega)]
  refine ⟨?_, ?_, ?_, ?_, ?_, ?_, ?_⟩
  · simp [read_u16_le, read_u8, Nat.mul_comm]
  · simp only [read_uint24, read_u8, hu24]
  · simp [read_u32_le, read_u8, Nat.mul_comm]
  · simp only [read_i16_le, read_u16_le, read_u8, Except.ok.injEq,
      Prod.mk.injEq, and_true]
    rw [Int.bmod_def]
    have hlt : b0 + b1 * 256 < 65536 := by omega
    split <;> split <;> push_cast <;> omega
  · simp only [read_i32_le, read_u32_le, read_u8, Except.ok.injEq,
      Prod.mk.injEq, and_true]
    rw [Int.bmod_def]
    have hlt : b0 + b1 * 256 + b2 * 65536 + b3 * 16777216 < 4294967296 := by
      omega
    split <;> split <;> push_cast <;> omega
  · simp [read_float, read_u8, Nat.mul_comm]
  · simp only [read_float, read_u32_le, read_u8, Except.ok.injEq,
      Prod.mk.injEq, and_true]
    ring

/-- Witness for C6 at the bytes 0x12, 0x34, 0x56, 0xF8 (with one
trailing byte left over): little-endian integers, big-endian float,
and a negative two's-complement 32-bit value. -/
theorem mixed_endianness_witness :
    read_u16_le [0x12, 0x34, 0x99] = .ok (13330, [0x99]) ∧
    read_uint24 [0x12, 0x34, 0x56, 0x99] = .ok (5649426, [0x99]) ∧
    read_u32_le [0x12, 0x34, 0x56, 0xF8, 0x99] = .ok (4166398994, [0x99]) ∧
    read_i16_le [0x12, 0x34, 0x99] = .ok (13330, [0x99]) ∧
    read_i32_le [0x12, 0x34, 0x56, 0xF8, 0x99] = .ok (-128568302, [0x99]) ∧
    read_float [0x12, 0x34, 0x56, 0xF8, 0x99] = .ok (305420024, [0x99]) ∧
    read_float [0x12, 0x34, 0x56, 0xF8, 0x99] =
      read_u32_le [0xF8, 0x56, 0x34, 0x12, 0x99] := by
  have h := mixed_endianness_law 0x12 0x34 0x56 0xF8 [0x99]
    (by decide) (by decide) (by decide) (by decide)
  refine ⟨h.1, h.2.1, h.2.2.1, ?_, ?_, h.2.2.2.2.2.1, h.2.2.2.2.2.2⟩
  · have := h.2.2.2.1
    rw [this]
    norm_num [Int.bmod_def]
  · have := h.2.2.2.2.1
    rw [this]
    norm_num [Int.bmod_def]

/-- Reading exactly the length of a prefix returns that prefix and the
remaining suffix. -/
theorem read_exact_append (l d : Bytes) :
    read_exact l.length (l ++ d) = .ok (l, d) := by
  induction l with
  | nil => rfl
  | cons b t ih => simp [read_exact, ih]

/-- Claim C10: a `Name` opcode whose length-prefixed payload is not
valid UTF-8 makes `parse_shader` return the (recoverable, non-panic)
UTF-8 conversion error as the decode result. -/
theorem invalid_utf8_name_errors (payload : Bytes)
    (_hlen : payload.length < 65536) (hbad : decodeUtf8 payload = none) :
    parse_shader
      (0xA4 :: payload.length % 256 :: payload.length / 256 :: payload) =
      .error .invalidUtf8 ∧
    PBError.isPanic .invalidUtf8 = false := by
  refine ⟨?_, rfl⟩
  have hre : read_exact (payload.length % 256 + payload.length / 256 * 256)
      payload = .ok (payload, []) := by
    rw [show payload.length % 256 + payload.length / 256 * 256 =
        payload.length from by rw [Nat.mul_comm]; exact Nat.mod_add_div _ _]
    have h := read_exact_append payload []
    rwa [List.append_nil] at h
  have hop : read_op (0xA4 :: payload.length % 256 ::
      payload.length / 256 :: payload) initShader [] =
      .error .invalidUtf8 := by
    have base : read_op (0xA4 :: payload.length % 256 ::
        payload.length / 256 :: payload) initShader [] =
        (match read_exact (payload.length % 256 + payload.length / 256 * 256)
            payload with
         | .error e => .error e
         | .ok (string_bytes, data) =>
           match decodeUtf8 string_bytes with
           | none => .error .invalidUtf8
           | some cs => .ok (data, { initShader with name := cs }, [])) := rfl
    rw [base]
    simp only [hre, hbad]
  have hstep : parse_shader
      (0xA4 :: payload.length % 256 :: payload.length / 256 :: payload) =
      match read_op (0xA4 :: payload.length % 256 ::
          payload.length / 256 :: payload) initShader [] with
      | .error e => .error e
      | .ok (d, s, m) => parseLoop (payload.length + 2) d s m := rfl
  rw [hstep, hop]

/-- Witness for C10 at the one-byte payload [0xFF], which is not valid
UTF-8, while the null-terminated string reader accepts that same byte
verbatim. -/
theorem invalid_utf8_name_errors_witness :
    parse_shader [0xA4, 0x01, 0x00, 0xFF] = .error .invalidUtf8 ∧
    PBError.isPanic .invalidUtf8 = false :=
  invalid_utf8_name_errors [0xFF] (by decide) (by decide)

/-- goodParams distributes over append. -/
theorem goodParams_append_eq (l1 l2 : List PixelBenderParam) :
    goodParams (l1 ++ l2) = (goodParams l1 && goodParams l2) := by
  simp [goodParams]

/-- goodParams is preserved by dropping the last element. -/
theorem goodParams_dropLast (l : List PixelBenderParam)
    (h : goodParams l = true) : goodParams l.dropLast = true := by
  simp only [goodParams, List.all_eq_true] at h ⊢
  intro p hp
  exact h p (List.dropLast_subset l hp)

/-- The metadata flush never changes which parameters are matrix-typed:
it only rewrites the metadata slot of the last Normal parameter. -/
theorem apply_metadata_goodParams (sh sh' : PixelBenderShader)
    (md : List PixelBenderMetadata) (h : apply_metadata sh md = .ok sh')
    (hg : goodParams sh.params = true) : goodParams sh'.params = true := by
  unfold apply_metadata at h
  split at h
  · rename_i q pt reg name m hlast
    simp only [Except.ok.injEq] at h
    subst h
    have hmem : PixelBenderParam.Normal q pt reg name m ∈ sh.params :=
      List.mem_of_getLast?_eq_some hlast
    have hpt : pt.isMatrix = false := by
      simp only [goodParams, List.all_eq_true] at hg
      have := hg _ hmem
      simpa [PixelBenderParam.isMatrixNormal] using this
    simp only [goodParams_append_eq, Bool.and_eq_true]
    refine ⟨goodParams_dropLast _ hg, ?_⟩
    simp [goodParams, PixelBenderParam.isMatrixNormal, hpt]
  · split at h
    · simp only [Except.ok.injEq] at h
      subst h
      exact hg
    · exact Except.noConfusion h
  · simp only [Except.ok.injEq] at h
    subst h
    simpa using hg

set_option maxHeartbeats 2000000 in
/-- One step of `read_op` never introduces a matrix-typed Normal
parameter: the PBJParam arm rejects matrix tags before the push, and
no other arm appends a Normal parameter. -/
theorem read_op_goodParams (d : Bytes) (sh : PixelBenderShader)
    (md : List PixelBenderMetadata) (d' : Bytes) (sh' : PixelBenderShader)
    (md' : List PixelBenderMetadata)
    (h : read_op d sh md = .ok (d', sh', md'))
    (hg : goodParams sh.params = true) : goodParams sh'.params = true := by
  cases d with
  | nil => exact Except.noConfusion h
  | cons b rest =>
    unfold read_op at h
    simp only [read_u8] at h
    cases hb : Opcode.fromU8 b with
    | none =>
      rw [hb] at h
      exact Except.noConfusion h
    | some op =>
      rw [hb] at h
      cases op <;> (try dsimp only at h) <;> (repeat' split at h) <;>
        (first
          | exact Except.noConfusion h
          | (simp only [Except.ok.injEq, Prod.mk.injEq] at h
             obtain ⟨-, h2, -⟩ := h
             subst h2
             first
             | simpa using hg
             | (simp only [goodParams_append_eq, Bool.and_eq_true]
                refine ⟨apply_metadata_goodParams _ _ _ (by assumption) hg, ?_⟩
                simp_all [goodParams, PixelBenderParam.isMatrixNormal])))

/-- The parse loop preserves freedom from matrix-typed Normal
parameters. -/
theorem parseLoop_goodParams : ∀ (fuel : Nat) (d : Bytes)
    (sh sh' : PixelBenderShader) (md : List PixelBenderMetadata),
    goodParams sh.params = true → parseLoop fuel d sh md = .ok sh' →
    goodParams sh'.params = true := by
  intro fuel
  induction fuel with
  | zero =>
    intro d sh sh' md hg h
    cases d with
    | nil =>
      replace h : apply_metadata sh md = Except.ok sh' := h
      exact apply_metadata_goodParams _ _ _ h hg
    | cons b rest => exact Except.noConfusion h
  | succ n ih =>
    intro d sh sh' md hg h
    cases d with
    | nil =>
      replace h : apply_metadata sh md = Except.ok sh' := h
      exact apply_metadata_goodParams _ _ _ h hg
    | cons b rest =>
      replace h : (match read_op (b :: rest) sh md with
        | .error e => .error e
        | .ok (d1, s1, m1) => parseLoop n d1 s1 m1) = Except.ok sh' := h
      cases hop : read_op (b :: rest) sh md with
      | error e =>
        rw [hop] at h
        exact Except.noConfusion h
      | ok x =>
        obtain ⟨d1, s1, m1⟩ := x
        rw [hop] at h
        simp only [] at h
        exact ih d1 s1 sh' m1 (read_op_goodParams _ _ _ _ _ _ hop hg) h

/-- Claim C5: a `Param` opcode with a matrix type tag (0x5, 0x6, 0x7)
makes the decode fail, and no program ever returned by `parse_shader`
contains a Normal parameter whose value type is a matrix tag. -/
theorem no_matrix_normal_param :
    (parse_shader [0xA1, 0x01, 0x05, 0x00, 0x00, 0x00, 0x00] =
        .error .panicUnsupportedParamType ∧
      parse_shader [0xA1, 0x01, 0x06, 0x00, 0x00, 0x00, 0x00] =
        .error .panicUnsupportedParamType ∧
      parse_shader [0xA1, 0x01, 0x07, 0x00, 0x00, 0x00, 0x00] =
        .error .panicUnsupportedParamType) ∧
    ∀ (data : Bytes) (sh : PixelBenderShader),
      parse_shader data = .ok sh → goodParams sh.params = true := by
  refine ⟨⟨rfl, rfl, rfl⟩, ?_⟩
  intro data sh h
  exact parseLoop_goodParams data.length data initShader sh [] rfl h

/-- Witness for C5 on a buffer declaring one float parameter named
"x": the decode succeeds and the resulting parameter list is free of
matrix-typed Normal parameters. -/
theorem no_matrix_normal_param_witness :
    parse_shader [0xA1, 0x01, 0x01, 0x00, 0x00, 0x08, 0x78, 0x00] = .ok
      { name := [], version := 0,
        params := [.Normal .Input .TFloat
          { index := 0, channels := [.R], kind := .Float } [0x78] []],
        metadata := [], operations := [] } ∧
    goodParams [PixelBenderParam.Normal .Input .TFloat
      { index := 0, channels := [.R], kind := .Float } [0x78] []] = true := by
  constructor
  · rfl
  · exact no_matrix_normal_param.2
      [0xA1, 0x01, 0x01, 0x00, 0x00, 0x08, 0x78, 0x00]
      { name := [], version := 0,
        params := [.Normal .Input .TFloat
          { index := 0, channels := [.R], kind := .Float } [0x78] []],
        metadata := [], operations := [] } rfl

end PixelBender
